import Mathlib

set_option maxRecDepth 100000

/-!
Verification development for the waste-management backend (`app.py`).

The Python program decodes an uploaded image to an RGB pixel grid, scans it
against ten static material color-range profiles (`detect_materials_in_image`),
classifies each detected material with a static lookup table
(`classify_waste_material`), and assembles a JSON response
(`classify_waste_api`).

The embedding below models the pixel grid as a width/height pair together with
a pixel function, and models the float arithmetic of the source exactly over ℚ.
Python's `round(x, 2)` (round half to even) is modelled by `pyRound`/`round2`.
The only runtime error the detector can raise — the `ZeroDivisionError` from
`ImageStat.Stat(img).mean` on a zero-area image in the fallback path — is
modelled by the `Except`-valued variant `detect_materials_in_imageE`.
-/

namespace WasteApp

/-- One RGB pixel; each channel is in `[0, 255]` in real images, though no
definition below depends on that bound. -/
structure RGB where
  r : Nat
  g : Nat
  b : Nat
deriving DecidableEq, Repr

/-- A decoded image: `pix y x` is the pixel in row `y`, column `x`
(mirroring `pixels[y][x]` for the numpy array of shape `(height, width, 3)`). -/
structure Img where
  width : Nat
  height : Nat
  pix : Nat → Nat → RGB

/-- A material detection profile, mirroring one entry of the
`material_profiles` dict in `detect_materials_in_image`. -/
structure Profile where
  color_min : RGB
  color_max : RGB
  min_pixels : Nat
  characteristics : String
deriving DecidableEq, Repr

/-- The `"Battery"` profile (named so that theorems can refer to it). -/
def batteryProfile : Profile := ⟨⟨20, 20, 20⟩, ⟨80, 80, 80⟩, 200, "cylindrical, dark, small"⟩

/-- The `"Electronic Device"` profile (named so that theorems can refer to it). -/
def electronicDeviceProfile : Profile := ⟨⟨10, 10, 10⟩, ⟨60, 60, 60⟩, 600, "dark, rigid, complex shape"⟩

/-- The static profile table of `detect_materials_in_image`, in insertion
order of the Python dict. -/
def material_profiles : List (String × Profile) :=
  [ ("Plastic Bottle",
      ⟨⟨100, 150, 200⟩, ⟨200, 220, 255⟩, 500, "transparent, blue tint, smooth"⟩),
    ("Food Waste",
      ⟨⟨50, 80, 20⟩, ⟨180, 220, 100⟩, 400, "organic colors, irregular texture"⟩),
    ("Paper/Cardboard",
      ⟨⟨180, 160, 140⟩, ⟨255, 240, 220⟩, 600, "fibrous, light colored, matte"⟩),
    ("Metal Can",
      ⟨⟨150, 150, 150⟩, ⟨220, 220, 230⟩, 300, "reflective, metallic sheen, cylindrical"⟩),
    ("Glass",
      ⟨⟨200, 230, 230⟩, ⟨255, 255, 255⟩, 400, "transparent, reflective, smooth"⟩),
    ("Plastic Bag",
      ⟨⟨200, 200, 200⟩, ⟨255, 255, 255⟩, 800, "thin, flexible, wrinkled texture"⟩),
    ("Food Container",
      ⟨⟨220, 220, 220⟩, ⟨255, 255, 255⟩, 500, "rigid plastic, white/clear"⟩),
    ("Aluminum Foil",
      ⟨⟨180, 180, 180⟩, ⟨240, 240, 240⟩, 300, "highly reflective, crinkled"⟩),
    ("Battery", batteryProfile),
    ("Electronic Device", electronicDeviceProfile) ]

/-- Per-pixel color mask: `np.all((pixels >= color_min) & (pixels <= color_max), axis=2)`,
inclusive on both bounds, on all three channels simultaneously. -/
def inRange (c : RGB) (p : Profile) : Bool :=
  decide (p.color_min.r ≤ c.r) && decide (c.r ≤ p.color_max.r) &&
  (decide (p.color_min.g ≤ c.g) && decide (c.g ≤ p.color_max.g)) &&
  (decide (p.color_min.b ≤ c.b) && decide (c.b ≤ p.color_max.b))

/-- The source's `pixel_count = np.sum(mask)`. -/
def maskCount (img : Img) (p : Profile) : Nat :=
  ((List.range img.height).map (fun y =>
    ((List.range img.width).filter (fun x => inRange (img.pix y x) p)).length)).sum

/-- The source's `coords = np.argwhere(mask)`: the `(row, col)` pairs of matching pixels,
in row-major order. -/
def maskCoords (img : Img) (p : Profile) : List (Nat × Nat) :=
  (List.range img.height).flatMap (fun y =>
    ((List.range img.width).filter (fun x => inRange (img.pix y x) p)).map (fun x => (y, x)))

/-- The source's `percentage = (pixel_count / (width * height)) * 100`, exactly over ℚ. -/
def pctQ (img : Img) (p : Profile) : ℚ :=
  ((maskCount img p : ℚ) / ((img.width * img.height : Nat) : ℚ)) * 100

/-- Python's `round` to an integer: round half to even. -/
def pyRound (q : ℚ) : ℤ :=
  if 1 / 2 < q - ⌊q⌋ then ⌊q⌋ + 1
  else if q - ⌊q⌋ < 1 / 2 then ⌊q⌋
  else if ⌊q⌋ % 2 = 0 then ⌊q⌋ else ⌊q⌋ + 1

/-- Python's `round(q, 2)`. -/
def round2 (q : ℚ) : ℚ := (pyRound (q * 100) : ℚ) / 100

/-- Mean of a list of channel values, as ℚ (`0` on the empty list, matching
`x / 0 = 0` in ℚ; the source only evaluates this on nonempty data). -/
def listMeanQ (l : List Nat) : ℚ := (l.sum : ℚ) / (l.length : ℚ)

/-- Population variance of a list of channel values (numpy's `var`):
mean of squares minus square of mean. -/
def listVarQ (l : List Nat) : ℚ :=
  (((l.map (fun v => v * v)).sum : Nat) : ℚ) / (l.length : ℚ) - listMeanQ l ^ 2

/-- All channel values of a pixel list, for `region.mean()` / `region.var()`,
which average over the channel axis as well. -/
def channelValues (ps : List RGB) : List Nat := ps.flatMap (fun c => [c.r, c.g, c.b])

/-- The `region_stats` dict of a profile detection. -/
structure RegionStats where
  avg_color : ℚ × ℚ × ℚ
  brightness : ℚ
  variance : ℚ
deriving DecidableEq

/-- The `region_stats` dict computed over a pixel region:
`avg_color = region.mean(axis=(0,1))`, `brightness = region.mean()`,
`variance = region.var()`. -/
def regionStatsOf (ps : List RGB) : RegionStats :=
  { avg_color := (listMeanQ (ps.map RGB.r), listMeanQ (ps.map RGB.g), listMeanQ (ps.map RGB.b)),
    brightness := listMeanQ (channelValues ps),
    variance := listVarQ (channelValues ps) }

/-- The pixel sub-grid `pixels[y0:y1+1, x0:x1+1]`, flattened in row-major order. -/
def regionPixels (img : Img) (y0 y1 x0 x1 : Nat) : List RGB :=
  (List.range (y1 + 1 - y0)).flatMap (fun i =>
    (List.range (x1 + 1 - x0)).map (fun j => img.pix (y0 + i) (x0 + j)))

/-- The `position` dict of a detection: integer center and the bounding box
list `[x_min, y_min, x_max, y_max]` (for the fallback, `[0, 0, width, height]`). -/
structure Position where
  x : Nat
  y : Nat
  bbox : List Nat
deriving DecidableEq

/-- One entry of the `detected_materials` list. -/
structure Detection where
  material : String
  confidence : ℚ
  coverage : ℚ
  characteristics : String
  region_stats : RegionStats
  position : Position
deriving DecidableEq

/-- One entry of the `material_regions` list. -/
structure MaterialRegion where
  name : String
  bbox : List Nat
deriving DecidableEq

/-- The row component of `coords.min(axis=0)`. -/
def yMinOf (img : Img) (p : Profile) : Nat := (((maskCoords img p).map Prod.fst).min?).getD 0

/-- The column component of `coords.min(axis=0)`. -/
def xMinOf (img : Img) (p : Profile) : Nat := (((maskCoords img p).map Prod.snd).min?).getD 0

/-- The row component of `coords.max(axis=0)`. -/
def yMaxOf (img : Img) (p : Profile) : Nat := (((maskCoords img p).map Prod.fst).max?).getD 0

/-- The column component of `coords.max(axis=0)`. -/
def xMaxOf (img : Img) (p : Profile) : Nat := (((maskCoords img p).map Prod.snd).max?).getD 0

/-- The detection record appended for a qualifying profile:
`confidence = min(0.95, 0.70 + percentage / 100)` over the raw percentage,
`coverage = round(percentage, 2)`, `region = pixels[y_min:y_max+1, x_min:x_max+1]`,
integer-truncated bounding-box center, `bbox = [x_min, y_min, x_max, y_max]`. -/
def detectionOf (img : Img) (material_name : String) (profile : Profile) : Detection :=
  { material := material_name,
    confidence := min (95 / 100) (70 / 100 + pctQ img profile / 100),
    coverage := round2 (pctQ img profile),
    characteristics := profile.characteristics,
    region_stats := regionStatsOf
      (regionPixels img (yMinOf img profile) (yMaxOf img profile)
        (xMinOf img profile) (xMaxOf img profile)),
    position :=
      { x := (xMinOf img profile + xMaxOf img profile) / 2,
        y := (yMinOf img profile + yMaxOf img profile) / 2,
        bbox := [xMinOf img profile, yMinOf img profile, xMaxOf img profile, yMaxOf img profile] } }

/-- One iteration of the profile loop of `detect_materials_in_image`: the
detection appended for `material_name`/`profile` if the mask passes the
`pixel_count >= min_pixels` and `len(coords) > 0` guards, else `none`. -/
def detectProfile (img : Img) (material_name : String) (profile : Profile) : Option Detection :=
  if profile.min_pixels ≤ maskCount img profile then
    if 0 < (maskCoords img profile).length then
      some (detectionOf img material_name profile)
    else none
  else none

/-- The `(detected_materials, material_regions)` pair appended by one
iteration of the profile loop (`none` when the profile does not qualify). -/
def pairOf (img : Img) (np : String × Profile) : Option (Detection × MaterialRegion) :=
  (detectProfile img np.1 np.2).map (fun d => (d, ⟨np.1, d.position.bbox⟩))

/-- The `(detected_materials, material_regions)` pairs accumulated by the
profile loop, in profile-table order. -/
def detectedPairs (img : Img) : List (Detection × MaterialRegion) :=
  material_profiles.filterMap (pairOf img)

/-- The profile-derived detections, in profile-table order (before sorting). -/
def profileDetections (img : Img) : List Detection := (detectedPairs img).map Prod.fst

/-- All pixels of the image, row-major. -/
def allPixels (img : Img) : List RGB :=
  (List.range img.height).flatMap (fun y =>
    (List.range img.width).map (fun x => img.pix y x))

/-- The three per-channel means, `ImageStat.Stat(img).mean`. -/
def channelMeans (img : Img) : ℚ × ℚ × ℚ :=
  ((listMeanQ ((allPixels img).map RGB.r)),
   (listMeanQ ((allPixels img).map RGB.g)),
   (listMeanQ ((allPixels img).map RGB.b)))

/-- The fallback's `brightness = (r + g + b) / 3` over the per-channel means. -/
def meanBrightness (img : Img) : ℚ :=
  ((channelMeans img).1 + (channelMeans img).2.1 + (channelMeans img).2.2) / 3

/-- The fallback's `variance = sum(stat.var) / 3`: mean of the per-channel variances. -/
def meanVariance (img : Img) : ℚ :=
  (listVarQ ((allPixels img).map RGB.r) + listVarQ ((allPixels img).map RGB.g) +
    listVarQ ((allPixels img).map RGB.b)) / 3

/-- The single fallback detection emitted when no profile matched:
`"Light-colored Waste"` when `brightness > 180`, else `"Dark-colored Waste"`,
confidence `0.65`, coverage `100.0`, bounding box `[0, 0, width, height]`. -/
def fallbackDetection (img : Img) : Detection :=
  let m := channelMeans img
  if 180 < meanBrightness img then
    { material := "Light-colored Waste",
      confidence := 65 / 100,
      coverage := 100,
      characteristics := "unidentified light material",
      region_stats := ⟨m, meanBrightness img, meanVariance img⟩,
      position := ⟨img.width / 2, img.height / 2, [0, 0, img.width, img.height]⟩ }
  else
    { material := "Dark-colored Waste",
      confidence := 65 / 100,
      coverage := 100,
      characteristics := "unidentified dark material",
      region_stats := ⟨m, meanBrightness img, meanVariance img⟩,
      position := ⟨img.width / 2, img.height / 2, [0, 0, img.width, img.height]⟩ }

/-- The comparison passed to the final sort: Python's
`sort(key=lambda x: x["coverage"], reverse=True)` is a stable sort that puts
larger coverage first. -/
def coverageGe (a b : Detection) : Bool := decide (b.coverage ≤ a.coverage)

/-- The unsorted detection list right before the final sort: the profile
detections, or the single fallback detection if there were none. -/
def unsortedDetections (img : Img) : List Detection :=
  if (profileDetections img).isEmpty then [fallbackDetection img] else profileDetections img

/-- The function `detect_materials_in_image`, as a total function over the ℚ model.
Division by a zero pixel count cannot occur on the real control flow; the
`Except`-valued variant `detect_materials_in_imageE` accounts for the one
genuinely reachable `ZeroDivisionError` (zero-area image in the fallback). -/
def detect_materials_in_image (img : Img) : List Detection × List MaterialRegion :=
  ((unsortedDetections img).mergeSort coverageGe, (detectedPairs img).map Prod.snd)

/-- The function `detect_materials_in_image` with the runtime error of the fallback path
made explicit: on a zero-area image, `ImageStat.Stat(img).mean` raises
`ZeroDivisionError` (caught by the API layer); the profile loop itself never
divides by zero because every `min_pixels` threshold is positive. -/
def detect_materials_in_imageE (img : Img) :
    Except String (List Detection × List MaterialRegion) :=
  if (profileDetections img).isEmpty then
    if img.width * img.height = 0 then
      Except.error "division by zero"
    else
      Except.ok ([fallbackDetection img].mergeSort coverageGe, (detectedPairs img).map Prod.snd)
  else
    Except.ok ((profileDetections img).mergeSort coverageGe, (detectedPairs img).map Prod.snd)

/-- One record of the `classification_map` table of `classify_waste_material`. -/
structure Classification where
  category : String
  subcategory : String
  bin_color : String
  instructions : String
  color : String
  recyclable : Bool
  hazardous : Bool
deriving DecidableEq, Repr

/-- The static `classification_map` dict, in insertion order. -/
def classification_map : List (String × Classification) :=
  [ ("Plastic Bottle",
      ⟨"Recyclable - Plastic", "PET/HDPE Bottle", "Blue Bin",
       "Empty and rinse bottle. Remove cap. Crush to save space. Check for recycling symbol (#1 or #2).",
       "blue", true, false⟩),
    ("Food Waste",
      ⟨"Compost/Organic", "Biodegradable Organic Matter", "Green/Brown Bin",
       "Place in compost bin. Avoid meat, dairy, or oily foods if composting at home.",
       "green", false, false⟩),
    ("Paper/Cardboard",
      ⟨"Recyclable - Paper", "Clean Paper/Cardboard", "Blue Bin",
       "Flatten cardboard boxes. Remove plastic tape and labels. Keep dry and clean.",
       "yellow", true, false⟩),
    ("Metal Can",
      ⟨"Recyclable - Metal", "Aluminum/Steel Can", "Blue Bin",
       "Rinse thoroughly. Remove paper labels if possible. Crush to save space.",
       "gray", true, false⟩),
    ("Glass",
      ⟨"Recyclable - Glass", "Glass Container", "Blue/Green Bin",
       "Rinse thoroughly. Remove metal caps. Separate by color if required locally.",
       "blue", true, false⟩),
    ("Plastic Bag",
      ⟨"Soft Plastic", "Film Plastic", "Special Collection",
       "Take to grocery store collection point. DO NOT put in regular recycling bin.",
       "yellow", true, false⟩),
    ("Food Container",
      ⟨"Recyclable - Plastic", "Food-grade Plastic", "Blue Bin",
       "Wash thoroughly to remove food residue. Check recycling number (usually #5).",
       "blue", true, false⟩),
    ("Aluminum Foil",
      ⟨"Recyclable - Metal", "Aluminum Foil", "Blue Bin",
       "Clean off food residue. Ball up to golf-ball size before recycling.",
       "gray", true, false⟩),
    ("Battery",
      ⟨"Hazardous Waste", "Electronic/Chemical Waste", "Special Disposal",
       "NEVER throw in regular trash. Take to designated battery collection point or e-waste facility.",
       "red", false, true⟩),
    ("Electronic Device",
      ⟨"E-Waste", "Electronic Equipment", "E-Waste Collection",
       "Take to certified e-waste recycling center. Contains valuable and hazardous materials.",
       "red", false, true⟩) ]

/-- The default record returned by `classification_map.get(material_name, {...})`
for names absent from the table. -/
def defaultClassification : Classification :=
  ⟨"General Waste", "Unidentified", "Black Bin",
   "Unable to classify. Dispose in general waste bin.", "gray", false, false⟩

/-- The function `classify_waste_material`: a pure lookup by material name; the
`region_stats` argument is accepted (as in the source) but never read. -/
def classify_waste_material (material_name : String) (region_stats : RegionStats) :
    Classification :=
  match classification_map.find? (fun e => e.1 == material_name) with
  | some e => e.2
  | none => defaultClassification

/-- One entry of the `materials` array of a successful response. -/
structure ClassifiedMaterial where
  detected_material : String
  confidence : ℚ
  coverage_percentage : ℚ
  characteristics : String
  position : Position
  classification : Classification
deriving DecidableEq

/-- The `summary` object of a successful response. `general_waste_items` is
the literal subtraction performed by the source (an `Int` in Python). -/
structure Summary where
  recyclable_items : Nat
  hazardous_items : Nat
  general_waste_items : Int
deriving DecidableEq

/-- The `primary_classification` object of a successful response. -/
structure Primary where
  category : String
  status : String
  message : String
  color : String
  bin_color : String
deriving DecidableEq

/-- The JSON body of a successful (HTTP 200) response. -/
structure ApiResponse where
  success : Bool
  total_materials_detected : Nat
  materials : List ClassifiedMaterial
  summary : Summary
  primary_classification : Primary
deriving DecidableEq

/-- The JSON error envelope of a failed request. -/
structure ErrEnvelope where
  success : Bool
  error : String
  message : String
deriving DecidableEq

/-- Steps 2–3 of `classify_waste_api`: classify each detection and assemble
the success response. -/
def responseOf (detected_materials : List Detection) : ApiResponse :=
  let classified_materials := detected_materials.map (fun material =>
    ({ detected_material := material.material,
       confidence := round2 material.confidence,
       coverage_percentage := material.coverage,
       characteristics := material.characteristics,
       position := material.position,
       classification := classify_waste_material material.material material.region_stats }
      : ClassifiedMaterial))
  let total_recyclable := (classified_materials.filter (fun m => m.classification.recyclable)).length
  let total_hazardous := (classified_materials.filter (fun m => m.classification.hazardous)).length
  { success := true,
    total_materials_detected := classified_materials.length,
    materials := classified_materials,
    summary :=
      ⟨total_recyclable, total_hazardous,
       (classified_materials.length : Int) - total_recyclable - total_hazardous⟩,
    primary_classification :=
      match classified_materials.head? with
      | some primary_material =>
          ⟨primary_material.classification.category,
           primary_material.classification.subcategory,
           primary_material.classification.instructions,
           primary_material.classification.color,
           primary_material.classification.bin_color⟩
      | none => ⟨"Unknown", "No materials detected", "Upload a clearer image.", "gray", "N/A"⟩ }

/-- The endpoint `classify_waste_api` on an already-decoded image: the success path builds
the 200 response; a detector error is caught by the `except` clause and turned
into a 400 error envelope. -/
def classify_waste_api (img : Img) : Except ErrEnvelope ApiResponse × Nat :=
  match detect_materials_in_imageE img with
  | Except.error e =>
      (Except.error ⟨false, "Processing failed", "Image processing error: " ++ e⟩, 400)
  | Except.ok (detected_materials, _material_regions) =>
      (Except.ok (responseOf detected_materials), 200)

/-- A constant-color image, used for the concrete scenarios. -/
def constImg (w h : Nat) (c : RGB) : Img := ⟨w, h, fun _ _ => c⟩

/-- A 1×1 all-white image: too small for every `min_pixels` threshold, so the
(light) fallback fires. -/
def img1 : Img := constImg 1 1 ⟨255, 255, 255⟩

/-- A zero-area image (width 0). -/
def img0 : Img := constImg 0 5 ⟨0, 0, 0⟩

/-- The all-black 100×100 image of spec Scenario A. -/
def black100 : Img := constImg 100 100 ⟨0, 0, 0⟩

/-- A uniformly dark-gray (50,50,50) 100×100 image: inside both the Battery
and the Electronic Device color ranges. -/
def gray100 : Img := constImg 100 100 ⟨50, 50, 50⟩

/-- A 30×30 image whose top-left 10×20 block is dark gray (50,50,50) and whose
remaining 700 pixels are black: exactly 200 pixels match the Battery range,
giving the non-terminating percentage 200/900·100 = 22.2̄ %. -/
def imgC6 : Img := ⟨30, 30, fun y x => if y < 10 ∧ x < 20 then ⟨50, 50, 50⟩ else ⟨0, 0, 0⟩⟩

/-! ### Basic facts about the mask, the coordinates, and the percentage -/

theorem maskCoords_length (img : Img) (p : Profile) :
    (maskCoords img p).length = maskCount img p := by
  simp [maskCoords, maskCount, List.length_flatMap, Function.comp_def]

theorem maskCount_le_area (img : Img) (p : Profile) :
    maskCount img p ≤ img.height * img.width := by
  unfold maskCount
  have h := List.sum_le_card_nsmul
    ((List.range img.height).map (fun y =>
      ((List.range img.width).filter (fun x => inRange (img.pix y x) p)).length))
    img.width ?_
  · simpa using h
  · intro x hx
    obtain ⟨y, -, rfl⟩ := List.mem_map.mp hx
    simpa using
      List.length_filter_le (fun x => inRange (img.pix y x) p) (List.range img.width)

theorem mem_maskCoords {img : Img} {p : Profile} {c : Nat × Nat} :
    c ∈ maskCoords img p ↔
      c.1 < img.height ∧ c.2 < img.width ∧ inRange (img.pix c.1 c.2) p := by
  obtain ⟨y, x⟩ := c
  simp only [maskCoords, List.mem_flatMap, List.mem_map, List.mem_filter, List.mem_range]
  constructor
  · rintro ⟨a, ha, b, ⟨hb, hr⟩, hab⟩
    obtain ⟨rfl, rfl⟩ := Prod.mk.injEq .. ▸ hab
    exact ⟨ha, hb, hr⟩
  · rintro ⟨hy, hx, hr⟩
    exact ⟨y, hy, x, ⟨hx, hr⟩, rfl⟩

theorem pctQ_nonneg (img : Img) (p : Profile) : 0 ≤ pctQ img p := by
  unfold pctQ
  positivity

theorem pctQ_le_hundred (img : Img) (p : Profile) : pctQ img p ≤ 100 := by
  unfold pctQ
  rcases Nat.eq_zero_or_pos (img.width * img.height) with h | h
  · simp [h]
  · have hA : (0 : ℚ) < ((img.width * img.height : Nat) : ℚ) := by exact_mod_cast h
    have hc : ((maskCount img p : Nat) : ℚ) ≤ ((img.width * img.height : Nat) : ℚ) := by
      have h1 : maskCount img p ≤ img.width * img.height := by
        calc maskCount img p ≤ img.height * img.width := maskCount_le_area img p
        _ = img.width * img.height := Nat.mul_comm _ _
      exact_mod_cast h1
    rw [div_mul_eq_mul_div, div_le_iff₀ hA]
    nlinarith

/-! ### `min?` and `max?` over `Nat` lists -/

theorem natMin?_spec {l : List Nat} {a : Nat} (h : l.min? = some a) :
    a ∈ l ∧ ∀ b ∈ l, a ≤ b := by
  rw [List.min?_eq_some_iff (fun a => Nat.le_refl a) (fun a b => min_choice a b)
    (fun a b c => le_min_iff)] at h
  exact h

theorem natMax?_spec {l : List Nat} {a : Nat} (h : l.max? = some a) :
    a ∈ l ∧ ∀ b ∈ l, b ≤ a := by
  rw [List.max?_eq_some_iff (fun a => Nat.le_refl a) (fun a b => max_choice a b)
    (fun a b c => max_le_iff)] at h
  exact h

theorem natMin?_isSome {l : List Nat} (h : l ≠ []) : ∃ a, l.min? = some a := by
  cases l with
  | nil => exact absurd rfl h
  | cons x t => exact ⟨t.foldl min x, rfl⟩

theorem natMax?_isSome {l : List Nat} (h : l ≠ []) : ∃ a, l.max? = some a := by
  cases l with
  | nil => exact absurd rfl h
  | cons x t => exact ⟨t.foldl max x, rfl⟩

/-! ### Python rounding -/

theorem pyRound_bounds (q : ℚ) : ⌊q⌋ ≤ pyRound q ∧ pyRound q ≤ ⌊q⌋ + 1 := by
  unfold pyRound
  split_ifs <;> omega

theorem round2_nonneg {q : ℚ} (h : 0 ≤ q) : 0 ≤ round2 q := by
  unfold round2
  have h1 : (0 : ℤ) ≤ ⌊q * 100⌋ := Int.floor_nonneg.mpr (by positivity)
  have h2 := (pyRound_bounds (q * 100)).1
  have h3 : (0 : ℤ) ≤ pyRound (q * 100) := le_trans h1 h2
  have h4 : (0 : ℚ) ≤ (pyRound (q * 100) : ℚ) := by exact_mod_cast h3
  positivity

theorem round2_le_hundred {q : ℚ} (h : q ≤ 100) : round2 q ≤ 100 := by
  have hq : q * 100 ≤ 10000 := by linarith
  have hfl : (⌊q * 100⌋ : ℚ) ≤ q * 100 := Int.floor_le _
  have hten : ⌊q * 100⌋ ≤ 10000 := by
    have : ⌊q * 100⌋ ≤ ⌊(10000 : ℚ)⌋ := Int.floor_le_floor hq
    simpa using this
  have key : pyRound (q * 100) ≤ 10000 := by
    unfold pyRound
    split_ifs with h1 h2 h3
    · -- rounded up: the fractional part exceeds 1/2, so the floor is ≤ 9999
      have : (⌊q * 100⌋ : ℚ) < 10000 - 1 / 2 := by linarith
      have : (⌊q * 100⌋ : ℚ) < ((9999 : ℤ) : ℚ) + 1 / 2 := by push_cast; linarith
      have h9 : ⌊q * 100⌋ ≤ 9999 := by
        by_contra hgt
        push_neg at hgt
        have : ((10000 : ℤ) : ℚ) ≤ (⌊q * 100⌋ : ℚ) := by exact_mod_cast hgt
        push_cast at this
        linarith
      omega
    · omega
    · omega
    · -- the tie case with an odd floor: the fractional part is exactly 1/2
      have hr : q * 100 - (⌊q * 100⌋ : ℚ) = 1 / 2 := le_antisymm (not_lt.mp h1) (not_lt.mp h2)
      have : (⌊q * 100⌋ : ℚ) = q * 100 - 1 / 2 := by linarith
      have h9 : ⌊q * 100⌋ ≤ 9999 := by
        by_contra hgt
        push_neg at hgt
        have : ((10000 : ℤ) : ℚ) ≤ (⌊q * 100⌋ : ℚ) := by exact_mod_cast hgt
        push_cast at this
        linarith
      omega
  unfold round2
  rw [div_le_iff₀ (by norm_num : (0 : ℚ) < 100)]
  calc ((pyRound (q * 100) : ℤ) : ℚ) ≤ ((10000 : ℤ) : ℚ) := by exact_mod_cast key
  _ = 100 * 100 := by norm_num

theorem round2_hundred : round2 100 = 100 := by
  unfold round2 pyRound
  norm_num

/-! ### Structure of the profile loop -/

theorem detectProfile_eq_some_iff {img : Img} {n : String} {p : Profile} {d : Detection} :
    detectProfile img n p = some d ↔
      p.min_pixels ≤ maskCount img p ∧ 0 < (maskCoords img p).length ∧
        d = detectionOf img n p := by
  unfold detectProfile
  split_ifs with h1 h2
  · constructor
    · rintro h
      exact ⟨h1, h2, (Option.some.injEq .. ▸ h).symm⟩
    · rintro ⟨-, -, rfl⟩
      rfl
  · simp [h1, h2]
  · simp [h1]

theorem detectProfile_eq_none_of_lt {img : Img} {n : String} {p : Profile}
    (h : maskCount img p < p.min_pixels) : detectProfile img n p = none := by
  unfold detectProfile
  rw [if_neg (by omega)]

theorem mem_profileDetections {img : Img} {d : Detection} :
    d ∈ profileDetections img ↔
      ∃ np ∈ material_profiles, detectProfile img np.1 np.2 = some d := by
  simp only [profileDetections, detectedPairs, pairOf, List.mem_map, List.mem_filterMap,
    Option.map_eq_some']
  constructor
  · rintro ⟨pair, ⟨np, hnp, d', hd', rfl⟩, rfl⟩
    exact ⟨np, hnp, hd'⟩
  · rintro ⟨np, hnp, hd⟩
    exact ⟨(d, ⟨np.1, d.position.bbox⟩), ⟨np, hnp, d, hd, rfl⟩, rfl⟩

theorem profileDetections_eq_nil {img : Img}
    (h : ∀ np ∈ material_profiles, detectProfile img np.1 np.2 = none) :
    profileDetections img = [] := by
  unfold profileDetections detectedPairs
  rw [List.filterMap_eq_nil_iff.mpr]
  · rfl
  · intro np hnp
    unfold pairOf
    rw [h np hnp]
    rfl

/-! ### The final sort -/

theorem coverageGe_trans (a b c : Detection) :
    coverageGe a b = true → coverageGe b c = true → coverageGe a c = true := by
  simp only [coverageGe, decide_eq_true_eq]
  exact fun h1 h2 => le_trans h2 h1

theorem coverageGe_total (a b : Detection) : (coverageGe a b || coverageGe b a) = true := by
  simp only [coverageGe, Bool.or_eq_true, decide_eq_true_eq]
  exact le_total b.coverage a.coverage

theorem unsortedDetections_ne_nil (img : Img) : unsortedDetections img ≠ [] := by
  unfold unsortedDetections
  split_ifs with h
  · simp
  · exact fun hnil => by simp [hnil] at h

theorem mem_detect {img : Img} {d : Detection} :
    d ∈ (detect_materials_in_image img).1 ↔ d ∈ unsortedDetections img := by
  unfold detect_materials_in_image
  exact List.mem_mergeSort

theorem detect_ne_nil (img : Img) : (detect_materials_in_image img).1 ≠ [] := by
  unfold detect_materials_in_image
  intro h
  have h1 : (unsortedDetections img).length = 0 := by
    have := congrArg List.length h
    simpa using this
  exact unsortedDetections_ne_nil img (List.length_eq_zero.mp h1)

/-! ### The fallback detection -/

theorem fallbackDetection_confidence (img : Img) :
    (fallbackDetection img).confidence = 65 / 100 := by
  unfold fallbackDetection
  split_ifs <;> rfl

theorem fallbackDetection_coverage (img : Img) : (fallbackDetection img).coverage = 100 := by
  unfold fallbackDetection
  split_ifs <;> rfl

theorem fallbackDetection_bbox (img : Img) :
    (fallbackDetection img).position.bbox = [0, 0, img.width, img.height] := by
  unfold fallbackDetection
  split_ifs <;> rfl

theorem fallbackDetection_material_light {img : Img} (h : 180 < meanBrightness img) :
    (fallbackDetection img).material = "Light-colored Waste" := by
  unfold fallbackDetection
  rw [if_pos h]

theorem fallbackDetection_material_dark {img : Img} (h : ¬ 180 < meanBrightness img) :
    (fallbackDetection img).material = "Dark-colored Waste" := by
  unfold fallbackDetection
  rw [if_neg h]

/-! ### The classification table -/

theorem classify_range (n : String) (rs : RegionStats) :
    classify_waste_material n rs = defaultClassification ∨
      ∃ e ∈ classification_map, classify_waste_material n rs = e.2 := by
  unfold classify_waste_material
  cases hf : classification_map.find? (fun e => e.1 == n) with
  | none => exact Or.inl rfl
  | some e => exact Or.inr ⟨e, List.mem_of_find?_eq_some hf, rfl⟩

theorem classify_not_placeholder (n : String) (rs : RegionStats) :
    (classify_waste_material n rs).subcategory ≠ "No materials detected" ∧
      (classify_waste_material n rs).category ≠ "Unknown" := by
  rcases classify_range n rs with h | ⟨e, he, h⟩
  · rw [h]
    constructor <;> decide
  · rw [h]
    have hall : ∀ e ∈ classification_map,
        e.2.subcategory ≠ "No materials detected" ∧ e.2.category ≠ "Unknown" := by decide
    exact hall e he

/-! ### Constant images -/

theorem flatMap_const_replicate {α γ : Type} (n : Nat) (c : γ) (l : List α) :
    l.flatMap (fun _ => List.replicate n c) = List.replicate (l.length * n) c := by
  induction l with
  | nil => simp
  | cons a t ih =>
      rw [List.flatMap_cons, ih, ← List.replicate_add]
      congr 1
      simp only [List.length_cons]
      ring

theorem allPixels_const (w h : Nat) (c : RGB) :
    allPixels (constImg w h c) = List.replicate (h * w) c := by
  unfold allPixels constImg
  have h1 : ∀ y : Nat, (List.range w).map (fun _ : Nat => c) = List.replicate w c := by
    intro y
    simp [List.map_const']
  calc (List.range h).flatMap (fun _ => (List.range w).map (fun _ : Nat => c))
      = (List.range h).flatMap (fun _ => List.replicate w c) := by
        simp [List.map_const']
  _ = List.replicate ((List.range h).length * w) c := flatMap_const_replicate w c _
  _ = List.replicate (h * w) c := by rw [List.length_range]

theorem maskCount_const (w h : Nat) (c : RGB) (p : Profile) :
    maskCount (constImg w h c) p = if inRange c p then h * w else 0 := by
  unfold maskCount constImg
  cases hb : inRange c p with
  | true =>
      simp only [hb, if_true]
      simp [List.filter_cons, hb, List.filter_true, List.map_const', List.sum_replicate,
        smul_eq_mul]
  | false =>
      simp only [hb, if_false]
      simp [hb]

theorem maskCoords_const_ne_nil {w h : Nat} {c : RGB} {p : Profile}
    (hb : inRange c p = true) (hpos : 0 < h * w) :
    maskCoords (constImg w h c) p ≠ [] := by
  apply List.ne_nil_of_length_pos
  rw [maskCoords_length, maskCount_const, if_pos hb]
  exact hpos

theorem listMeanQ_replicate {n : Nat} (hn : 0 < n) (v : Nat) :
    listMeanQ (List.replicate n v) = v := by
  have hn' : ((n : ℕ) : ℚ) ≠ 0 := Nat.cast_ne_zero.mpr (by omega)
  unfold listMeanQ
  rw [List.sum_replicate, List.length_replicate, smul_eq_mul]
  push_cast
  field_simp

theorem channelMeans_const {w h : Nat} (c : RGB) (hpos : 0 < h * w) :
    channelMeans (constImg w h c) = ((c.r : ℚ), (c.g : ℚ), (c.b : ℚ)) := by
  unfold channelMeans
  rw [allPixels_const]
  simp only [List.map_replicate]
  rw [listMeanQ_replicate hpos, listMeanQ_replicate hpos, listMeanQ_replicate hpos]

theorem meanBrightness_const {w h : Nat} (c : RGB) (hpos : 0 < h * w) :
    meanBrightness (constImg w h c) = ((c.r : ℚ) + c.g + c.b) / 3 := by
  unfold meanBrightness
  rw [channelMeans_const c hpos]

theorem pctQ_const {w h : Nat} {c : RGB} {p : Profile} (hb : inRange c p = true)
    (hpos : 0 < w * h) : pctQ (constImg w h c) p = 100 := by
  unfold pctQ
  rw [maskCount_const, if_pos hb]
  have h1 : (h * w : Nat) = (w * h : Nat) := Nat.mul_comm h w
  have h2 : (((w * h : Nat) : Nat) : ℚ) ≠ 0 := Nat.cast_ne_zero.mpr (by omega)
  show (((h * w : Nat) : Nat) : ℚ) / (((constImg w h c).width * (constImg w h c).height : Nat) : ℚ) * 100 = 100
  rw [h1]
  show (((w * h : Nat) : Nat) : ℚ) / (((w * h : Nat) : Nat) : ℚ) * 100 = 100
  rw [div_self h2, one_mul]

/-! ### Bounding boxes -/

theorem bbox_bounds {img : Img} {p : Profile} (hpos : 0 < (maskCoords img p).length) :
    xMinOf img p ≤ xMaxOf img p ∧ xMaxOf img p < img.width ∧
      yMinOf img p ≤ yMaxOf img p ∧ yMaxOf img p < img.height := by
  have hne : maskCoords img p ≠ [] := List.ne_nil_of_length_pos hpos
  have hxne : (maskCoords img p).map Prod.snd ≠ [] := by
    apply List.ne_nil_of_length_pos
    simpa using hpos
  have hyne : (maskCoords img p).map Prod.fst ≠ [] := by
    apply List.ne_nil_of_length_pos
    simpa using hpos
  obtain ⟨xa, hxa⟩ := natMin?_isSome hxne
  obtain ⟨xb, hxb⟩ := natMax?_isSome hxne
  obtain ⟨ya, hya⟩ := natMin?_isSome hyne
  obtain ⟨yb, hyb⟩ := natMax?_isSome hyne
  obtain ⟨hxa_mem, hxa_le⟩ := natMin?_spec hxa
  obtain ⟨hxb_mem, hxb_ge⟩ := natMax?_spec hxb
  obtain ⟨hya_mem, hya_le⟩ := natMin?_spec hya
  obtain ⟨hyb_mem, hyb_ge⟩ := natMax?_spec hyb
  have hxb_lt : xb < img.width := by
    obtain ⟨co, hco, rfl⟩ := List.mem_map.mp hxb_mem
    exact (mem_maskCoords.mp hco).2.1
  have hyb_lt : yb < img.height := by
    obtain ⟨co, hco, rfl⟩ := List.mem_map.mp hyb_mem
    exact (mem_maskCoords.mp hco).1
  refine ⟨?_, ?_, ?_, ?_⟩
  · rw [xMinOf, xMaxOf, hxa, hxb]
    exact hxa_le xb hxb_mem
  · rw [xMaxOf, hxb]
    exact hxb_lt
  · rw [yMinOf, yMaxOf, hya, hyb]
    exact hya_le yb hyb_mem
  · rw [yMaxOf, hyb]
    exact hyb_lt

theorem bbox_const {w h : Nat} {c : RGB} {p : Profile} (hw : 0 < w) (hh : 0 < h)
    (hb : inRange c p = true) :
    xMinOf (constImg w h c) p = 0 ∧ xMaxOf (constImg w h c) p = w - 1 ∧
      yMinOf (constImg w h c) p = 0 ∧ yMaxOf (constImg w h c) p = h - 1 := by
  have hne : maskCoords (constImg w h c) p ≠ [] :=
    maskCoords_const_ne_nil hb (by positivity)
  have hmem0 : ((0, 0) : Nat × Nat) ∈ maskCoords (constImg w h c) p :=
    mem_maskCoords.mpr ⟨hh, hw, hb⟩
  have hmemM : ((h - 1, w - 1) : Nat × Nat) ∈ maskCoords (constImg w h c) p :=
    mem_maskCoords.mpr ⟨by show h - 1 < h; omega, by show w - 1 < w; omega, hb⟩
  have hxne : (maskCoords (constImg w h c) p).map Prod.snd ≠ [] := by
    apply List.ne_nil_of_length_pos
    have := List.length_pos_of_ne_nil hne
    simpa using this
  have hyne : (maskCoords (constImg w h c) p).map Prod.fst ≠ [] := by
    apply List.ne_nil_of_length_pos
    have := List.length_pos_of_ne_nil hne
    simpa using this
  have hpos : 0 < (maskCoords (constImg w h c) p).length := List.length_pos_of_ne_nil hne
  obtain ⟨hmm, hxlt, hmm', hylt⟩ := bbox_bounds hpos
  obtain ⟨xa, hxa⟩ := natMin?_isSome hxne
  obtain ⟨xb, hxb⟩ := natMax?_isSome hxne
  obtain ⟨ya, hya⟩ := natMin?_isSome hyne
  obtain ⟨yb, hyb⟩ := natMax?_isSome hyne
  obtain ⟨-, hxa_le⟩ := natMin?_spec hxa
  obtain ⟨-, hxb_ge⟩ := natMax?_spec hxb
  obtain ⟨-, hya_le⟩ := natMin?_spec hya
  obtain ⟨-, hyb_ge⟩ := natMax?_spec hyb
  have hx0 : (0 : Nat) ∈ (maskCoords (constImg w h c) p).map Prod.snd :=
    List.mem_map.mpr ⟨(0, 0), hmem0, rfl⟩
  have hxM : (w - 1 : Nat) ∈ (maskCoords (constImg w h c) p).map Prod.snd :=
    List.mem_map.mpr ⟨(h - 1, w - 1), hmemM, rfl⟩
  have hy0 : (0 : Nat) ∈ (maskCoords (constImg w h c) p).map Prod.fst :=
    List.mem_map.mpr ⟨(0, 0), hmem0, rfl⟩
  have hyM : (h - 1 : Nat) ∈ (maskCoords (constImg w h c) p).map Prod.fst :=
    List.mem_map.mpr ⟨(h - 1, w - 1), hmemM, rfl⟩
  have hxwidth : xMaxOf (constImg w h c) p < w := hxlt
  have hyheight : yMaxOf (constImg w h c) p < h := hylt
  refine ⟨?_, ?_, ?_, ?_⟩
  · have := hxa_le 0 hx0
    rw [xMinOf, hxa]
    simpa using this
  · have h1 := hxb_ge (w - 1) hxM
    rw [xMaxOf, hxb] at hxwidth ⊢
    simp only [Option.getD_some] at hxwidth ⊢
    omega
  · have := hya_le 0 hy0
    rw [yMinOf, hya]
    simpa using this
  · have h1 := hyb_ge (h - 1) hyM
    rw [yMaxOf, hyb] at hyheight ⊢
    simp only [Option.getD_some] at hyheight ⊢
    omega

/-! ### The profile loop on constant images -/

theorem detectProfile_const_none {w h : Nat} {c : RGB} {p : Profile} (n : String)
    (hb : inRange c p = false) (hmp : 0 < p.min_pixels) :
    detectProfile (constImg w h c) n p = none := by
  apply detectProfile_eq_none_of_lt
  rw [maskCount_const, if_neg (by simp [hb])]
  exact hmp

theorem detectProfile_const_lt {w h : Nat} {c : RGB} {p : Profile} (n : String)
    (hmp : h * w < p.min_pixels) :
    detectProfile (constImg w h c) n p = none := by
  apply detectProfile_eq_none_of_lt
  rw [maskCount_const]
  split_ifs <;> omega

theorem detectProfile_const_some {w h : Nat} {c : RGB} {p : Profile} (n : String)
    (hb : inRange c p = true) (hmp : p.min_pixels ≤ h * w) (hpos : 0 < h * w) :
    detectProfile (constImg w h c) n p = some (detectionOf (constImg w h c) n p) := by
  apply detectProfile_eq_some_iff.mpr
  refine ⟨?_, ?_, rfl⟩
  · rw [maskCount_const, if_pos hb]
    exact hmp
  · rw [maskCoords_length, maskCount_const, if_pos hb]
    exact hpos

theorem pairOf_const_none {w h : Nat} {c : RGB} {np : String × Profile}
    (hb : inRange c np.2 = false) (hmp : 0 < np.2.min_pixels) :
    pairOf (constImg w h c) np = none := by
  unfold pairOf
  rw [detectProfile_const_none np.1 hb hmp]
  rfl

theorem pairOf_const_some {w h : Nat} {c : RGB} {np : String × Profile}
    (hb : inRange c np.2 = true) (hmp : np.2.min_pixels ≤ h * w) (hpos : 0 < h * w) :
    pairOf (constImg w h c) np =
      some (detectionOf (constImg w h c) np.1 np.2,
        ⟨np.1, (detectionOf (constImg w h c) np.1 np.2).position.bbox⟩) := by
  unfold pairOf
  rw [detectProfile_const_some np.1 hb hmp hpos]
  rfl

/-! ### Concrete evaluations: `img1`, `black100`, `gray100` -/

theorem profileDetections_img1 : profileDetections img1 = [] := by
  apply profileDetections_eq_nil
  have hall : ∀ np ∈ material_profiles, 1 * 1 < np.2.min_pixels := by decide
  intro np hnp
  exact detectProfile_const_lt np.1 (hall np hnp)

theorem detect_img1 : detect_materials_in_image img1 = ([fallbackDetection img1], []) := by
  unfold detect_materials_in_image unsortedDetections
  rw [profileDetections_img1]
  simp only [List.isEmpty_nil, if_true, List.mergeSort_singleton]
  have hpairs : detectedPairs img1 = [] := by
    have h1 := profileDetections_img1
    unfold profileDetections at h1
    exact List.map_eq_nil_iff.mp h1
  rw [hpairs]
  rfl

theorem meanBrightness_img1 : meanBrightness img1 = 255 := by
  show meanBrightness (constImg 1 1 ⟨255, 255, 255⟩) = 255
  rw [meanBrightness_const ⟨255, 255, 255⟩ (by norm_num)]
  norm_num

theorem fallback_img1_material : (fallbackDetection img1).material = "Light-colored Waste" :=
  fallbackDetection_material_light (by rw [meanBrightness_img1]; norm_num)

theorem profileDetections_black100 : profileDetections black100 = [] := by
  apply profileDetections_eq_nil
  have hall : ∀ np ∈ material_profiles,
      inRange ⟨0, 0, 0⟩ np.2 = false ∧ 0 < np.2.min_pixels := by decide
  intro np hnp
  exact detectProfile_const_none np.1 (hall np hnp).1 (hall np hnp).2

theorem detect_black100 :
    detect_materials_in_image black100 = ([fallbackDetection black100], []) := by
  unfold detect_materials_in_image unsortedDetections
  rw [profileDetections_black100]
  simp only [List.isEmpty_nil, if_true, List.mergeSort_singleton]
  have hpairs : detectedPairs black100 = [] := by
    have h1 := profileDetections_black100
    unfold profileDetections at h1
    exact List.map_eq_nil_iff.mp h1
  rw [hpairs]
  rfl

theorem meanBrightness_black100 : meanBrightness black100 = 0 := by
  show meanBrightness (constImg 100 100 ⟨0, 0, 0⟩) = 0
  rw [meanBrightness_const ⟨0, 0, 0⟩ (by norm_num)]
  norm_num

theorem fallback_black100_material :
    (fallbackDetection black100).material = "Dark-colored Waste" :=
  fallbackDetection_material_dark (by rw [meanBrightness_black100]; norm_num)

theorem detectedPairs_gray100 :
    detectedPairs gray100 =
      [(detectionOf gray100 "Battery" batteryProfile,
        ⟨"Battery", (detectionOf gray100 "Battery" batteryProfile).position.bbox⟩),
       (detectionOf gray100 "Electronic Device" electronicDeviceProfile,
        ⟨"Electronic Device",
         (detectionOf gray100 "Electronic Device" electronicDeviceProfile).position.bbox⟩)] := by
  have e1 : pairOf gray100
      ("Plastic Bottle", ⟨⟨100, 150, 200⟩, ⟨200, 220, 255⟩, 500, "transparent, blue tint, smooth"⟩)
      = none := pairOf_const_none (by decide) (by decide)
  have e2 : pairOf gray100
      ("Food Waste", ⟨⟨50, 80, 20⟩, ⟨180, 220, 100⟩, 400, "organic colors, irregular texture"⟩)
      = none := pairOf_const_none (by decide) (by decide)
  have e3 : pairOf gray100
      ("Paper/Cardboard", ⟨⟨180, 160, 140⟩, ⟨255, 240, 220⟩, 600, "fibrous, light colored, matte"⟩)
      = none := pairOf_const_none (by decide) (by decide)
  have e4 : pairOf gray100
      ("Metal Can", ⟨⟨150, 150, 150⟩, ⟨220, 220, 230⟩, 300, "reflective, metallic sheen, cylindrical"⟩)
      = none := pairOf_const_none (by decide) (by decide)
  have e5 : pairOf gray100
      ("Glass", ⟨⟨200, 230, 230⟩, ⟨255, 255, 255⟩, 400, "transparent, reflective, smooth"⟩)
      = none := pairOf_const_none (by decide) (by decide)
  have e6 : pairOf gray100
      ("Plastic Bag", ⟨⟨200, 200, 200⟩, ⟨255, 255, 255⟩, 800, "thin, flexible, wrinkled texture"⟩)
      = none := pairOf_const_none (by decide) (by decide)
  have e7 : pairOf gray100
      ("Food Container", ⟨⟨220, 220, 220⟩, ⟨255, 255, 255⟩, 500, "rigid plastic, white/clear"⟩)
      = none := pairOf_const_none (by decide) (by decide)
  have e8 : pairOf gray100
      ("Aluminum Foil", ⟨⟨180, 180, 180⟩, ⟨240, 240, 240⟩, 300, "highly reflective, crinkled"⟩)
      = none := pairOf_const_none (by decide) (by decide)
  have e9 : pairOf gray100 ("Battery", batteryProfile) =
      some (detectionOf gray100 "Battery" batteryProfile,
        ⟨"Battery", (detectionOf gray100 "Battery" batteryProfile).position.bbox⟩) :=
    pairOf_const_some (by decide) (by decide) (by decide)
  have e10 : pairOf gray100 ("Electronic Device", electronicDeviceProfile) =
      some (detectionOf gray100 "Electronic Device" electronicDeviceProfile,
        ⟨"Electronic Device",
         (detectionOf gray100 "Electronic Device" electronicDeviceProfile).position.bbox⟩) :=
    pairOf_const_some (by decide) (by decide) (by decide)
  unfold detectedPairs
  rw [material_profiles]
  rw [List.filterMap_cons_none e1, List.filterMap_cons_none e2, List.filterMap_cons_none e3,
    List.filterMap_cons_none e4, List.filterMap_cons_none e5, List.filterMap_cons_none e6,
    List.filterMap_cons_none e7, List.filterMap_cons_none e8,
    List.filterMap_cons_some e9, List.filterMap_cons_some e10]
  rfl

theorem profileDetections_gray100 :
    profileDetections gray100 =
      [detectionOf gray100 "Battery" batteryProfile,
       detectionOf gray100 "Electronic Device" electronicDeviceProfile] := by
  unfold profileDetections
  rw [detectedPairs_gray100]
  rfl

theorem gray100_battery_coverage :
    (detectionOf gray100 "Battery" batteryProfile).coverage = 100 := by
  show round2 (pctQ gray100 batteryProfile) = 100
  rw [show gray100 = constImg 100 100 ⟨50, 50, 50⟩ from rfl,
    pctQ_const (by decide) (by norm_num), round2_hundred]

theorem gray100_electronic_coverage :
    (detectionOf gray100 "Electronic Device" electronicDeviceProfile).coverage = 100 := by
  show round2 (pctQ gray100 electronicDeviceProfile) = 100
  rw [show gray100 = constImg 100 100 ⟨50, 50, 50⟩ from rfl,
    pctQ_const (by decide) (by norm_num), round2_hundred]

theorem gray100_battery_confidence :
    (detectionOf gray100 "Battery" batteryProfile).confidence = 95 / 100 := by
  show min (95 / 100) (70 / 100 + pctQ gray100 batteryProfile / 100) = 95 / 100
  rw [show gray100 = constImg 100 100 ⟨50, 50, 50⟩ from rfl,
    pctQ_const (by decide) (by norm_num)]
  norm_num

theorem gray100_electronic_confidence :
    (detectionOf gray100 "Electronic Device" electronicDeviceProfile).confidence = 95 / 100 := by
  show min (95 / 100) (70 / 100 + pctQ gray100 electronicDeviceProfile / 100) = 95 / 100
  rw [show gray100 = constImg 100 100 ⟨50, 50, 50⟩ from rfl,
    pctQ_const (by decide) (by norm_num)]
  norm_num

theorem detect_gray100_fst :
    (detect_materials_in_image gray100).1 =
      [detectionOf gray100 "Battery" batteryProfile,
       detectionOf gray100 "Electronic Device" electronicDeviceProfile] := by
  unfold detect_materials_in_image
  have hup : unsortedDetections gray100 =
      [detectionOf gray100 "Battery" batteryProfile,
       detectionOf gray100 "Electronic Device" electronicDeviceProfile] := by
    unfold unsortedDetections
    rw [profileDetections_gray100]
    rfl
  rw [hup]
  apply List.mergeSort_of_sorted
  apply List.pairwise_cons.mpr
  refine ⟨?_, by simp⟩
  intro d hd
  simp only [List.mem_singleton] at hd
  subst hd
  unfold coverageGe
  rw [gray100_battery_coverage, gray100_electronic_coverage]
  exact decide_eq_true (le_refl _)

/-! ### Concrete evaluation: `imgC6` -/

theorem pairOf_none_of_lt {img : Img} {np : String × Profile}
    (h : maskCount img np.2 < np.2.min_pixels) : pairOf img np = none := by
  unfold pairOf
  rw [detectProfile_eq_none_of_lt h]
  rfl

theorem pairOf_some_of {img : Img} {np : String × Profile}
    (h1 : np.2.min_pixels ≤ maskCount img np.2) (h2 : 0 < (maskCoords img np.2).length) :
    pairOf img np =
      some (detectionOf img np.1 np.2,
        ⟨np.1, (detectionOf img np.1 np.2).position.bbox⟩) := by
  unfold pairOf
  rw [detectProfile_eq_some_iff.mpr ⟨h1, h2, rfl⟩]
  rfl

theorem detectedPairs_imgC6 :
    detectedPairs imgC6 =
      [(detectionOf imgC6 "Battery" batteryProfile,
        ⟨"Battery", (detectionOf imgC6 "Battery" batteryProfile).position.bbox⟩)] := by
  have e1 : pairOf imgC6
      ("Plastic Bottle", ⟨⟨100, 150, 200⟩, ⟨200, 220, 255⟩, 500, "transparent, blue tint, smooth"⟩)
      = none := pairOf_none_of_lt (by decide)
  have e2 : pairOf imgC6
      ("Food Waste", ⟨⟨50, 80, 20⟩, ⟨180, 220, 100⟩, 400, "organic colors, irregular texture"⟩)
      = none := pairOf_none_of_lt (by decide)
  have e3 : pairOf imgC6
      ("Paper/Cardboard", ⟨⟨180, 160, 140⟩, ⟨255, 240, 220⟩, 600, "fibrous, light colored, matte"⟩)
      = none := pairOf_none_of_lt (by decide)
  have e4 : pairOf imgC6
      ("Metal Can", ⟨⟨150, 150, 150⟩, ⟨220, 220, 230⟩, 300, "reflective, metallic sheen, cylindrical"⟩)
      = none := pairOf_none_of_lt (by decide)
  have e5 : pairOf imgC6
      ("Glass", ⟨⟨200, 230, 230⟩, ⟨255, 255, 255⟩, 400, "transparent, reflective, smooth"⟩)
      = none := pairOf_none_of_lt (by decide)
  have e6 : pairOf imgC6
      ("Plastic Bag", ⟨⟨200, 200, 200⟩, ⟨255, 255, 255⟩, 800, "thin, flexible, wrinkled texture"⟩)
      = none := pairOf_none_of_lt (by decide)
  have e7 : pairOf imgC6
      ("Food Container", ⟨⟨220, 220, 220⟩, ⟨255, 255, 255⟩, 500, "rigid plastic, white/clear"⟩)
      = none := pairOf_none_of_lt (by decide)
  have e8 : pairOf imgC6
      ("Aluminum Foil", ⟨⟨180, 180, 180⟩, ⟨240, 240, 240⟩, 300, "highly reflective, crinkled"⟩)
      = none := pairOf_none_of_lt (by decide)
  have e9 : pairOf imgC6 ("Battery", batteryProfile) =
      some (detectionOf imgC6 "Battery" batteryProfile,
        ⟨"Battery", (detectionOf imgC6 "Battery" batteryProfile).position.bbox⟩) :=
    pairOf_some_of (by decide) (by decide)
  have e10 : pairOf imgC6 ("Electronic Device", electronicDeviceProfile) = none :=
    pairOf_none_of_lt (by decide)
  unfold detectedPairs
  rw [material_profiles]
  rw [List.filterMap_cons_none e1, List.filterMap_cons_none e2, List.filterMap_cons_none e3,
    List.filterMap_cons_none e4, List.filterMap_cons_none e5, List.filterMap_cons_none e6,
    List.filterMap_cons_none e7, List.filterMap_cons_none e8,
    List.filterMap_cons_some e9, List.filterMap_cons_none e10]
  rfl

theorem detect_imgC6_fst :
    (detect_materials_in_image imgC6).1 = [detectionOf imgC6 "Battery" batteryProfile] := by
  unfold detect_materials_in_image unsortedDetections profileDetections
  rw [detectedPairs_imgC6]
  simp only [List.map_cons, List.map_nil, List.isEmpty_cons, if_false, Bool.false_eq_true,
    List.mergeSort_singleton]

theorem imgC6_battery_pct : pctQ imgC6 batteryProfile = 200 / 9 := by
  have hmc : maskCount imgC6 batteryProfile = 200 := by decide
  unfold pctQ
  rw [hmc]
  show (200 : ℚ) / ((30 * 30 : Nat) : ℚ) * 100 = 200 / 9
  norm_num

theorem imgC6_battery_confidence :
    (detectionOf imgC6 "Battery" batteryProfile).confidence = 83 / 90 := by
  show min (95 / 100) (70 / 100 + pctQ imgC6 batteryProfile / 100) = 83 / 90
  rw [imgC6_battery_pct]
  rw [min_def]
  norm_num

theorem imgC6_battery_coverage :
    (detectionOf imgC6 "Battery" batteryProfile).coverage = 1111 / 50 := by
  show round2 (pctQ imgC6 batteryProfile) = 1111 / 50
  rw [imgC6_battery_pct]
  unfold round2 pyRound
  have hfl : ⌊(200 : ℚ) / 9 * 100⌋ = 2222 := by
    norm_num
  rw [hfl]
  norm_num

/-! ### The error-aware detector and the API layer -/

theorem maskCount_zero_area {img : Img} (h : img.width * img.height = 0) (p : Profile) :
    maskCount img p = 0 := by
  have h1 := maskCount_le_area img p
  have h2 : img.height * img.width = 0 := by rw [Nat.mul_comm]; exact h
  omega

theorem profileDetections_zero_area {img : Img} (h : img.width * img.height = 0) :
    profileDetections img = [] := by
  have hall : ∀ np ∈ material_profiles, 0 < np.2.min_pixels := by decide
  apply profileDetections_eq_nil
  intro np hnp
  apply detectProfile_eq_none_of_lt
  rw [maskCount_zero_area h]
  exact hall np hnp

theorem detectE_error_of_zero_area {img : Img} (h : img.width * img.height = 0) :
    detect_materials_in_imageE img = Except.error "division by zero" := by
  unfold detect_materials_in_imageE
  rw [profileDetections_zero_area h]
  simp [h]

theorem detectE_ok_of_pos {img : Img} (h : img.width * img.height ≠ 0) :
    detect_materials_in_imageE img = Except.ok (detect_materials_in_image img) := by
  unfold detect_materials_in_imageE detect_materials_in_image unsortedDetections
  by_cases h1 : (profileDetections img).isEmpty
  · rw [if_pos h1, if_pos h1, if_neg h]
  · rw [if_neg h1, if_neg h1]

theorem detectE_ok_ne_nil {img : Img} {dets : List Detection} {regs : List MaterialRegion}
    (h : detect_materials_in_imageE img = Except.ok (dets, regs)) : dets ≠ [] := by
  by_cases h2 : img.width * img.height = 0
  · rw [detectE_error_of_zero_area h2] at h
    simp at h
  · rw [detectE_ok_of_pos h2] at h
    simp only [Except.ok.injEq] at h
    have h1 : (detect_materials_in_image img).1 = dets := by rw [h]
    rw [← h1]
    exact detect_ne_nil img

theorem api_ok {img : Img} {dets : List Detection} {regs : List MaterialRegion}
    (h : detect_materials_in_imageE img = Except.ok (dets, regs)) :
    classify_waste_api img = (Except.ok (responseOf dets), 200) := by
  unfold classify_waste_api
  rw [h]

theorem api_error {img : Img} {e : String}
    (h : detect_materials_in_imageE img = Except.error e) :
    classify_waste_api img =
      (Except.error ⟨false, "Processing failed", "Image processing error: " ++ e⟩, 400) := by
  unfold classify_waste_api
  rw [h]

theorem detectE_img1 :
    detect_materials_in_imageE img1 = Except.ok ([fallbackDetection img1], []) := by
  rw [detectE_ok_of_pos (by decide), detect_img1]

theorem api_img1 :
    classify_waste_api img1 = (Except.ok (responseOf [fallbackDetection img1]), 200) :=
  api_ok detectE_img1

/-! ### Claims -/

/-- C1: for every decoded pixel grid with nonzero area, `detect_materials_in_image`
returns a non-empty detection list, and when no profile yields a qualifying match
it returns exactly the single brightness-based fallback detection, named
`"Light-colored Waste"` when the mean brightness exceeds 180 and
`"Dark-colored Waste"` otherwise. -/
theorem C1_detector_nonempty_with_fallback (img : Img) (h : 0 < img.width * img.height) :
    (detect_materials_in_image img).1 ≠ [] ∧
    ((∀ np ∈ material_profiles, maskCount img np.2 < np.2.min_pixels) →
      (detect_materials_in_image img).1 = [fallbackDetection img] ∧
      (180 < meanBrightness img → (fallbackDetection img).material = "Light-colored Waste") ∧
      (¬ 180 < meanBrightness img → (fallbackDetection img).material = "Dark-colored Waste")) := by
  refine ⟨detect_ne_nil img, fun hall => ⟨?_,
    fun hb => fallbackDetection_material_light hb,
    fun hb => fallbackDetection_material_dark hb⟩⟩
  have hpd : profileDetections img = [] :=
    profileDetections_eq_nil (fun np hnp => detectProfile_eq_none_of_lt (hall np hnp))
  unfold detect_materials_in_image unsortedDetections
  rw [hpd]
  simp

/-- Witness for C1, at the 1×1 all-white image. -/
theorem C1_witness :
    (detect_materials_in_image img1).1 ≠ [] ∧
    (detect_materials_in_image img1).1 = [fallbackDetection img1] := by
  refine ⟨(C1_detector_nonempty_with_fallback img1 (by decide)).1, ?_⟩
  exact ((C1_detector_nonempty_with_fallback img1 (by decide)).2 (by decide)).1

/-- C2: every detection carries a confidence in `[0.60, 0.95]` and a coverage in
`[0, 100]`; profile-derived confidences lie in `[0.70, 0.95]` and the fallback
detection's confidence is exactly `0.65`. -/
theorem C2_confidence_coverage_bounds (img : Img) :
    (∀ d ∈ (detect_materials_in_image img).1,
      (60 / 100 : ℚ) ≤ d.confidence ∧ d.confidence ≤ 95 / 100 ∧
        (0 : ℚ) ≤ d.coverage ∧ d.coverage ≤ 100) ∧
    (∀ d ∈ profileDetections img,
      (70 / 100 : ℚ) ≤ d.confidence ∧ d.confidence ≤ 95 / 100) ∧
    (fallbackDetection img).confidence = 65 / 100 := by
  have hprofile : ∀ d ∈ profileDetections img,
      (70 / 100 : ℚ) ≤ d.confidence ∧ d.confidence ≤ 95 / 100 ∧
        (0 : ℚ) ≤ d.coverage ∧ d.coverage ≤ 100 := by
    intro d hd
    obtain ⟨np, -, hsome⟩ := mem_profileDetections.mp hd
    obtain ⟨-, -, rfl⟩ := detectProfile_eq_some_iff.mp hsome
    have hpn := pctQ_nonneg img np.2
    have hph := pctQ_le_hundred img np.2
    refine ⟨?_, ?_, ?_, ?_⟩
    · show (70 / 100 : ℚ) ≤ min (95 / 100) (70 / 100 + pctQ img np.2 / 100)
      apply le_min (by norm_num)
      linarith
    · show min (95 / 100 : ℚ) (70 / 100 + pctQ img np.2 / 100) ≤ 95 / 100
      exact min_le_left _ _
    · show (0 : ℚ) ≤ round2 (pctQ img np.2)
      exact round2_nonneg hpn
    · show round2 (pctQ img np.2) ≤ 100
      exact round2_le_hundred hph
  refine ⟨?_, fun d hd => ⟨(hprofile d hd).1, (hprofile d hd).2.1⟩,
    fallbackDetection_confidence img⟩
  intro d hd
  rw [mem_detect] at hd
  unfold unsortedDetections at hd
  split_ifs at hd with h1
  · rw [List.mem_singleton] at hd
    subst hd
    rw [fallbackDetection_confidence, fallbackDetection_coverage]
    norm_num
  · obtain ⟨hc1, hc2, hc3, hc4⟩ := hprofile d hd
    exact ⟨by linarith, hc2, hc3, hc4⟩

/-- Witness for C2, at the 1×1 all-white image with its fallback detection. -/
theorem C2_witness :
    (60 / 100 : ℚ) ≤ (fallbackDetection img1).confidence ∧
      (fallbackDetection img1).confidence ≤ 95 / 100 ∧
      (0 : ℚ) ≤ (fallbackDetection img1).coverage ∧
      (fallbackDetection img1).coverage ≤ 100 :=
  (C2_confidence_coverage_bounds img1).1 (fallbackDetection img1) (by simp [detect_img1])

/-- C3 counterexample: on the all-black 100×100 image no profile matches (every
profile's color range excludes true black), so the detector returns the single
`"Dark-colored Waste"` fallback and no `"Battery"` detection at all. -/
theorem C3_black_counterexample :
    ((detect_materials_in_image black100).1).map Detection.material = ["Dark-colored Waste"] ∧
    "Battery" ∉ ((detect_materials_in_image black100).1).map Detection.material := by
  have h1 : (detect_materials_in_image black100).1 = [fallbackDetection black100] := by
    rw [detect_black100]
  rw [h1]
  simp [fallback_black100_material]

/-- C3 amended: the all-black 100×100 image matches no profile (the darkest
ranges start at (10,10,10) and (20,20,20)), so the fallback emits a single
`"Dark-colored Waste"` detection with confidence 0.65 and coverage 100.0; a
uniformly dark-gray (50,50,50) 100×100 image does match exactly the
`"Battery"` and `"Electronic Device"` profiles with coverage 100.0 and capped
confidence 0.95, with no fallback. -/
theorem C3_black_amended :
    (detect_materials_in_image black100).1 = [fallbackDetection black100] ∧
    (fallbackDetection black100).material = "Dark-colored Waste" ∧
    (fallbackDetection black100).confidence = 65 / 100 ∧
    (fallbackDetection black100).coverage = 100 ∧
    ((detect_materials_in_image gray100).1).map Detection.material =
      ["Battery", "Electronic Device"] ∧
    ((detect_materials_in_image gray100).1).map Detection.coverage = [100, 100] ∧
    ((detect_materials_in_image gray100).1).map Detection.confidence =
      [95 / 100, 95 / 100] := by
  refine ⟨by rw [detect_black100], fallback_black100_material,
    fallbackDetection_confidence black100, fallbackDetection_coverage black100, ?_, ?_, ?_⟩
  · rw [detect_gray100_fst]
    rfl
  · rw [detect_gray100_fst]
    simp [gray100_battery_coverage, gray100_electronic_coverage]
  · rw [detect_gray100_fst]
    simp [gray100_battery_confidence, gray100_electronic_confidence]

/-- C8: the result of `classify_waste_material` does not depend on its
`region_stats` argument. -/
theorem C8_region_stats_independent (material_name : String) (rs₁ rs₂ : RegionStats) :
    classify_waste_material material_name rs₁ = classify_waste_material material_name rs₂ :=
  rfl

/-- C4: the returned detection list is sorted by coverage in descending order,
and the sort is stable: for every coverage value, the sub-list of detections
with that coverage equals the corresponding sub-list of the unsorted list,
which is in insertion order of the static profile table. -/
theorem C4_sorted_by_coverage_stable (img : Img) :
    (detect_materials_in_image img).1.Pairwise (fun a b => b.coverage ≤ a.coverage) ∧
    (∀ q : ℚ, (detect_materials_in_image img).1.filter (fun d => decide (d.coverage = q)) =
      (unsortedDetections img).filter (fun d => decide (d.coverage = q))) := by
  constructor
  · have h := List.sorted_mergeSort coverageGe_trans coverageGe_total (unsortedDetections img)
    unfold detect_materials_in_image
    exact h.imp (fun hab => by simpa [coverageGe] using hab)
  · intro q
    have hpw : ((unsortedDetections img).filter (fun d => decide (d.coverage = q))).Pairwise
        (fun a b => coverageGe a b = true) := by
      apply List.pairwise_of_forall_mem_list
      intro a ha b hb
      have ha' : a.coverage = q := by simpa using (List.mem_filter.mp ha).2
      have hb' : b.coverage = q := by simpa using (List.mem_filter.mp hb).2
      unfold coverageGe
      rw [ha', hb']
      exact decide_eq_true (le_refl q)
    have hsub : ((unsortedDetections img).filter (fun d => decide (d.coverage = q))).Sublist
        (unsortedDetections img) := List.filter_sublist _
    have hkey := List.sublist_mergeSort coverageGe_trans coverageGe_total hpw hsub
    have hc : ((unsortedDetections img).filter (fun d => decide (d.coverage = q))).filter
        (fun d => decide (d.coverage = q)) =
        (unsortedDetections img).filter (fun d => decide (d.coverage = q)) :=
      List.filter_eq_self.mpr (fun a ha => (List.mem_filter.mp ha).2)
    have h2 := List.Sublist.filter (fun d => decide (d.coverage = q)) hkey
    rw [hc] at h2
    have hlen : (((unsortedDetections img).mergeSort coverageGe).filter
        (fun d => decide (d.coverage = q))).length =
        ((unsortedDetections img).filter (fun d => decide (d.coverage = q))).length := by
      rw [← List.countP_eq_length_filter, ← List.countP_eq_length_filter]
      exact (List.mergeSort_perm (unsortedDetections img) coverageGe).countP_eq _
    unfold detect_materials_in_image
    exact (h2.eq_of_length hlen.symm).symm

/-- C5: `classify_waste_material` is a pure total lookup: it is deterministic in
the material name (the `region_stats` argument is irrelevant), and every name
absent from the static table yields the default `"General Waste"` record with
`recyclable = false` and `hazardous = false`. -/
theorem C5_classifier_total_default (material_name : String) (rs rs' : RegionStats) :
    classify_waste_material material_name rs = classify_waste_material material_name rs' ∧
    (material_name ∉ classification_map.map Prod.fst →
      classify_waste_material material_name rs = defaultClassification) ∧
    defaultClassification.category = "General Waste" ∧
    defaultClassification.recyclable = false ∧ defaultClassification.hazardous = false := by
  refine ⟨rfl, fun hmem => ?_, rfl, rfl, rfl⟩
  unfold classify_waste_material
  rw [List.find?_eq_none.mpr]
  intro e he
  simp only [beq_iff_eq]
  intro heq
  exact hmem (List.mem_map.mpr ⟨e, he, heq⟩)

/-- Witness for C5, at a name absent from the classification table. -/
theorem C5_witness :
    classify_waste_material "Banana Peel" ⟨(0, 0, 0), 0, 0⟩ =
      classify_waste_material "Banana Peel" ⟨(1, 2, 3), 4, 5⟩ ∧
    classify_waste_material "Banana Peel" ⟨(0, 0, 0), 0, 0⟩ = defaultClassification := by
  refine ⟨(C5_classifier_total_default "Banana Peel" ⟨(0, 0, 0), 0, 0⟩ ⟨(1, 2, 3), 4, 5⟩).1, ?_⟩
  exact (C5_classifier_total_default "Banana Peel" ⟨(0, 0, 0), 0, 0⟩
    ⟨(1, 2, 3), 4, 5⟩).2.1 (by decide)

/-- C6 counterexample: on `imgC6` the Battery detection has confidence
`0.70 + (200/900·100)/100 = 83/90 = 0.9222…`, which differs from
`min(0.95, 0.70 + coverage/100)` computed from its reported (rounded)
coverage `22.22`: the code uses the raw percentage, not the rounded one. -/
theorem C6_counterexample :
    ∃ d ∈ (detect_materials_in_image imgC6).1,
      d.confidence ≠ min (95 / 100) (70 / 100 + d.coverage / 100) := by
  refine ⟨detectionOf imgC6 "Battery" batteryProfile, ?_, ?_⟩
  · rw [detect_imgC6_fst]
    exact List.mem_singleton_self _
  · rw [imgC6_battery_confidence, imgC6_battery_coverage]
    rw [min_def]
    norm_num

/-- C6 amended: for every profile-based detection, the confidence equals
`min(0.95, 0.70 + percentage/100)` where `percentage` is the raw (unrounded)
matching-pixel percentage, added as a direct offset without rescaling; the
detection's reported coverage is that same percentage rounded to 2 decimals. -/
theorem C6_confidence_from_raw_percentage {img : Img} {material_name : String}
    {profile : Profile} {d : Detection}
    (h : detectProfile img material_name profile = some d) :
    d.confidence = min (95 / 100) (70 / 100 + pctQ img profile / 100) ∧
    d.coverage = round2 (pctQ img profile) := by
  obtain ⟨-, -, rfl⟩ := detectProfile_eq_some_iff.mp h
  exact ⟨rfl, rfl⟩

/-- Witness for the amended C6, at the Battery detection of `imgC6`. -/
theorem C6_witness :
    (detectionOf imgC6 "Battery" batteryProfile).confidence =
      min (95 / 100) (70 / 100 + pctQ imgC6 batteryProfile / 100) ∧
    (detectionOf imgC6 "Battery" batteryProfile).coverage =
      round2 (pctQ imgC6 batteryProfile) :=
  C6_confidence_from_raw_percentage
    (detectProfile_eq_some_iff.mpr ⟨by decide, by decide, rfl⟩)

/-- C7: a zero-area decoded image is a processing error — the detector raises
the fallback path's `ZeroDivisionError`, no detection is produced, and the API
returns a 400 error envelope; with positive area, the divisor `width·height`
is nonzero and the detector runs error-free, returning the total model's
result. -/
theorem C7_zero_area_error (img : Img) :
    (img.width * img.height = 0 →
      detect_materials_in_imageE img = Except.error "division by zero" ∧
      classify_waste_api img =
        (Except.error ⟨false, "Processing failed", "Image processing error: division by zero"⟩,
         400)) ∧
    (0 < img.width * img.height →
      ((img.width * img.height : Nat) : ℚ) ≠ 0 ∧
      detect_materials_in_imageE img = Except.ok (detect_materials_in_image img)) := by
  constructor
  · intro h
    refine ⟨detectE_error_of_zero_area h, ?_⟩
    exact api_error (detectE_error_of_zero_area h)
  · intro h
    exact ⟨Nat.cast_ne_zero.mpr (by omega), detectE_ok_of_pos (by omega)⟩

/-- Witness for C7, at a 0×5 image and at the 1×1 all-white image. -/
theorem C7_witness :
    (detect_materials_in_imageE img0 = Except.error "division by zero" ∧
      classify_waste_api img0 =
        (Except.error ⟨false, "Processing failed", "Image processing error: division by zero"⟩,
         400)) ∧
    (((img1.width * img1.height : Nat) : ℚ) ≠ 0 ∧
      detect_materials_in_imageE img1 = Except.ok (detect_materials_in_image img1)) :=
  ⟨(C7_zero_area_error img0).1 (by decide), (C7_zero_area_error img1).2 (by decide)⟩

/-- C9: every successful (HTTP 200) response reports at least one material, and
its primary classification is built from the first (highest-coverage)
classified material; the `"No materials detected"` / `"Unknown"` placeholder is
never produced. -/
theorem C9_success_response_primary (img : Img) (resp : ApiResponse)
    (h : (classify_waste_api img).1 = Except.ok resp) :
    1 ≤ resp.total_materials_detected ∧
    ∃ m ms, resp.materials = m :: ms ∧
      resp.primary_classification =
        ⟨m.classification.category, m.classification.subcategory,
         m.classification.instructions, m.classification.color,
         m.classification.bin_color⟩ ∧
      resp.primary_classification.status ≠ "No materials detected" ∧
      resp.primary_classification.category ≠ "Unknown" := by
  by_cases h2 : img.width * img.height = 0
  · rw [api_error (detectE_error_of_zero_area h2)] at h
    simp at h
  · have hE := detectE_ok_of_pos h2
    rw [api_ok (by rw [hE])] at h
    simp only [Except.ok.injEq] at h
    subst h
    have hne : (detect_materials_in_image img).1 ≠ [] := detect_ne_nil img
    obtain ⟨d0, rest, hcons⟩ := List.exists_cons_of_ne_nil hne
    rw [hcons]
    unfold responseOf
    simp only [List.map_cons, List.head?_cons, List.length_cons]
    refine ⟨by omega, ?_⟩
    refine ⟨_, _, rfl, rfl, ?_, ?_⟩
    · show (classify_waste_material d0.material d0.region_stats).subcategory ≠
        "No materials detected"
      exact (classify_not_placeholder d0.material d0.region_stats).1
    · show (classify_waste_material d0.material d0.region_stats).category ≠ "Unknown"
      exact (classify_not_placeholder d0.material d0.region_stats).2

/-- Witness for C9, at the 1×1 all-white image. -/
theorem C9_witness :
    1 ≤ (responseOf [fallbackDetection img1]).total_materials_detected ∧
    ∃ m ms, (responseOf [fallbackDetection img1]).materials = m :: ms ∧
      (responseOf [fallbackDetection img1]).primary_classification =
        ⟨m.classification.category, m.classification.subcategory,
         m.classification.instructions, m.classification.color,
         m.classification.bin_color⟩ ∧
      (responseOf [fallbackDetection img1]).primary_classification.status ≠
        "No materials detected" ∧
      (responseOf [fallbackDetection img1]).primary_classification.category ≠ "Unknown" :=
  C9_success_response_primary img1 (responseOf [fallbackDetection img1]) (by rw [api_img1])

/-- C10: every profile-based detection carries a bounding box
`[x_min, y_min, x_max, y_max]` of valid inclusive pixel indices
(`x_min ≤ x_max ≤ width−1`, `y_min ≤ y_max ≤ height−1`), whereas the fallback
detection's bounding box is `[0, 0, width, height]`, whose maximum entries
exceed the last valid pixel index by one. -/
theorem C10_bbox_validity (img : Img) :
    (∀ d ∈ profileDetections img,
      ∃ x0 y0 x1 y1, d.position.bbox = [x0, y0, x1, y1] ∧
        x0 ≤ x1 ∧ x1 ≤ img.width - 1 ∧ 0 < img.width ∧
        y0 ≤ y1 ∧ y1 ≤ img.height - 1 ∧ 0 < img.height) ∧
    (fallbackDetection img).position.bbox = [0, 0, img.width, img.height] ∧
    (0 < img.width → img.width = (img.width - 1) + 1) ∧
    (0 < img.height → img.height = (img.height - 1) + 1) := by
  refine ⟨?_, fallbackDetection_bbox img, fun h => by omega, fun h => by omega⟩
  intro d hd
  obtain ⟨np, -, hsome⟩ := mem_profileDetections.mp hd
  obtain ⟨-, hlen, rfl⟩ := detectProfile_eq_some_iff.mp hsome
  obtain ⟨hxm, hxw, hym, hyh⟩ := bbox_bounds hlen
  exact ⟨xMinOf img np.2, yMinOf img np.2, xMaxOf img np.2, yMaxOf img np.2, rfl,
    hxm, by omega, by omega, hym, by omega, by omega⟩

/-- Witness for C10, at the Battery detection of the dark-gray 100×100 image. -/
theorem C10_witness :
    ∃ x0 y0 x1 y1,
      (detectionOf gray100 "Battery" batteryProfile).position.bbox = [x0, y0, x1, y1] ∧
        x0 ≤ x1 ∧ x1 ≤ gray100.width - 1 ∧ 0 < gray100.width ∧
        y0 ≤ y1 ∧ y1 ≤ gray100.height - 1 ∧ 0 < gray100.height :=
  (C10_bbox_validity gray100).1 (detectionOf gray100 "Battery" batteryProfile)
    (by rw [profileDetections_gray100]; simp)

end WasteApp
